import Mathlib

/-!
Verification development for the RAGFlow command-line client
(`src/cli/cli.py`, with a second variant in `src/cli/cli copy.py`).

The client is sequential request/response glue: every command reads a
token file, builds HTTP requests, and renders the JSON envelope
`\x7bcode, message, data\x7d` to the terminal.  We embed each command as a
pure Lean function from its inputs (token-file contents, parsed server
responses) to the ordered list of externally visible events it produces:
HTTP requests issued, lines echoed to stdout or stderr, process exits.
Python strings are Lean `String` (a list of characters), `dict.get`
lookups become `Option` fields, and the fractional `progress` values are
embedded as rationals (the arithmetic performed on them — multiply by
100, divide, floor — is exact in this range, so the rational model
agrees with the float semantics on every claim checked here).
-/

/-- Characters stripped by Python `str.strip()` (ASCII whitespace). -/
def pyIsSpace (c : Char) : Bool :=
  c == ' ' || c == '\t' || c == '\n' || c == '\r' || c == '\x0b' || c == '\x0c'

/-- Python `str.strip()` on the underlying character list: drop leading and
trailing whitespace. -/
def pyStripL (l : List Char) : List Char :=
  ((l.dropWhile pyIsSpace).reverse.dropWhile pyIsSpace).reverse

/-- Python `str.strip()`. -/
def pyStrip (s : String) : String :=
  String.mk (pyStripL s.data)

/-- Python `str.upper()` (ASCII). -/
def pyUpper (s : String) : String :=
  String.mk (s.data.map Char.toUpper)

/-- Python `str[:n]` slicing (first `n` characters). -/
def pySlice (s : String) (n : Nat) : String :=
  String.mk (s.data.take n)

/-- Python `str.replace(old, new)` for a single-character pattern. -/
def pyReplaceChar (s : String) (old new : Char) : String :=
  String.mk (s.data.map (fun c => if c == old then new else c))

/-- Python `str.ljust`-style field padding used by f-string `\x7bx:<w\x7d`. -/
def pyLJust (s : String) (w : Nat) : String :=
  s ++ String.mk (List.replicate (w - s.length) ' ')

/-- Python `int()` applied to a non-integer number truncates toward zero. -/
def pyInt (q : Rat) : Int :=
  if q < 0 then Int.ceil q else Int.floor q

/-- How Python's f-strings render an optional value: a missing value
(`None`) prints as the text "None". -/
def optText (o : Option String) : String :=
  o.getD "None"

/-- The externally visible events a command invocation produces, in order:
HTTP requests (method, URL, Authorization header, and the document-id list
for the batch-parsing body), stdout lines, stderr lines, the structured
progress-bar line of `check_task` (bar characters plus the exact percentage,
whose one-decimal text rendering is not modelled), the structured result
line of `test_retrieval` (rank, similarity score, document name), screen
clearing, process exit, and an uncaught Python exception. -/
inductive Event where
  | request (method url auth : String) (documentIds : List String)
  | echoOut (line : String)
  | echoErr (line : String)
  | progressLine (bar : List Char) (pct : Rat)
  | chunkHeader (rank : Nat) (score : Rat) (docName : String)
  | clearScreen
  | exitProc (code : Nat)
  | pyRaise (err : String)
deriving DecidableEq

/-- True exactly on HTTP-request events. -/
def Event.isRequest : Event → Bool
  | .request _ _ _ _ => true
  | _ => false

/-- True exactly on stderr lines. -/
def Event.isEchoErr : Event → Bool
  | .echoErr _ => true
  | _ => false

/-- `BASE_URL` default (the `RAGFLOW_BASE_URL` environment override is not
modelled; every claim is insensitive to the root). -/
def BASE_URL : String := "https://rag-api.guardennes.ai"

/-- `sdk_url(path)`: the SDK API root. -/
def sdk_url (path : String) : String :=
  BASE_URL ++ "/api/v1" ++ path

/-- `get_token()`: read the credential file and strip surrounding
whitespace; on a missing file, print the not-authenticated error to stderr
and exit with code 1.  The file is modelled by an `Option String` holding
its contents. -/
def get_token (tokenFile : Option String) : Except (List Event) String :=
  match tokenFile with
  | some contents => .ok (pyStrip contents)
  | none => .error
      [.echoErr "❌ Not authenticated. Run: python cli.py login",
       .exitProc 1]

/-- `get_headers()`: the Authorization header value built from the loaded
token. -/
def get_headers (token : String) : String :=
  "Bearer " ++ token

/-- The credential-file contents written by a successful `login`:
the server token with the fixed "ragflow-" prefix. -/
def saveLoginToken (token : String) : String :=
  "ragflow-" ++ token

/-- The credential-file contents written by a successful `register`:
the server token unmodified. -/
def saveRegisterToken (token : String) : String :=
  token

/-- Parsed response of the `login` endpoint: HTTP status, envelope `code`
(read by direct indexing, hence required), optional `message`, and the
`data.token` field read on the success path. -/
structure LoginResponse where
  status_code : Nat
  code : Int
  message : Option String
  token : String
deriving DecidableEq

/-- `login` after its POST: on HTTP 200 with envelope code 0, write the
prefixed token to the credential file and confirm; otherwise print the
server message (or "Login failed") to stderr.  Returns the written file
contents (if any) and the emitted events. -/
def login_handle (r : LoginResponse) : Option String × List Event :=
  if r.status_code == 200 && r.code == 0 then
    (some (saveLoginToken r.token), [.echoOut "✓ Authenticated"])
  else
    (none, [.echoErr ("❌ " ++ r.message.getD "Login failed")])

/-- The full `login` command: one POST to `/v1/user/login`, then response
handling. -/
def login_run (r : LoginResponse) : Option String × List Event :=
  let handled := login_handle r
  (handled.1, .request "POST" (BASE_URL ++ "/v1/user/login") "" [] :: handled.2)

/-- The symbol alphabet of `register`'s password check. -/
def symbolChars : List Char :=
  "!@#$%^&*(),.?\":\x7b\x7d|<>".data

/-- `any(c in symbols for c in password)`. -/
def hasSymbol (password : String) : Bool :=
  password.data.any (fun c => symbolChars.contains c)

/-- Parsed responses consumed by `register`: the `/v1/user/register` reply
and the follow-up `/v1/system/new_token` reply (both read `code` by direct
indexing). -/
structure RegisterResponses where
  reg_status : Nat
  reg_code : Int
  reg_message : Option String
  tok_status : Nat
  tok_code : Int
  tok_token : String
deriving DecidableEq

/-- The full `register` command: client-side password validation (length,
then symbol), the registration POST, and the token-generation POST on the
same session.  On token success the unmodified token is written; on token
failure a notice is printed to stdout directing the operator to `login`.
Returns the written credential-file contents (if any) and the events. -/
def register_run (password : String) (rs : RegisterResponses) :
    Option String × List Event :=
  if password.length < 9 then
    (none, [.echoErr "❌ Password must be at least 9 characters"])
  else if !hasSymbol password then
    (none, [.echoErr "❌ Password must contain at least one symbol"])
  else
    let e1 := Event.request "POST" (BASE_URL ++ "/v1/user/register") "" []
    if rs.reg_status != 200 || rs.reg_code != 0 then
      (none, [e1, .echoErr ("❌ " ++ rs.reg_message.getD "Registration failed")])
    else
      let e2 := Event.request "POST" (BASE_URL ++ "/v1/system/new_token") "" []
      if rs.tok_status == 200 && rs.tok_code == 0 then
        (some (saveRegisterToken rs.tok_token),
         [e1, e2, .echoOut "✓ Registered & authenticated"])
      else
        (none, [e1, e2, .echoOut "✓ Registered. Now run: python cli.py login"])

/-- A document row returned by the document-list endpoint, restricted to
the fields the client reads: `id`, `name`, the `run` status (absent field
modelled as `none`), `token_count`, `chunk_count`. -/
structure Doc where
  id : String
  name : String
  run : Option String
  token_count : Nat
  chunk_count : Nat
deriving DecidableEq

/-- The `data` object returned by the task-tracing endpoints, restricted to
the fields the client reads (each via `dict.get`, hence optional). -/
structure TaskInfo where
  id : Option String
  progress : Option Rat
  progress_msg : Option String
deriving DecidableEq

/-- A retrieval chunk, restricted to the fields the client reads. -/
structure Chunk where
  similarity : Option Rat
  content_with_weight : Option String
  content : Option String
  document_name : Option String
deriving DecidableEq

/-- The common SDK response envelope as the client consumes it: the HTTP
status (never inspected by the SDK commands), the `code` and `message`
fields looked up with `dict.get`, and the raw body text used in some error
messages. -/
structure SdkEnvelope where
  status_code : Nat
  code : Option Int
  message : Option String
  raw : String
deriving DecidableEq

/-- `create_kb` after its POST: on envelope code 0 read `data.id` and print
the ID plus the next-command hint; otherwise print the failure line with the
server message (or the raw body).  Reading a missing `data.id` on the
success path raises an uncaught `KeyError` in the source. -/
def create_kb_render (r : SdkEnvelope) (dataId : Option String) : List Event :=
  if r.code == some 0 then
    match dataId with
    | some kb_id =>
        [.echoOut ("✓ Knowledge Base Created. ID: " ++ kb_id),
         .echoOut ("  Next: python cli.py upload --kb-id " ++ kb_id ++ " --file <path>")]
    | none => [.pyRaise "KeyError"]
  else
    [.echoErr ("❌ Failed: " ++ r.message.getD r.raw)]

/-- The full `create_kb` command: credential load, one POST to
`/api/v1/datasets`, response rendering. -/
def create_kb_run (tokenFile : Option String) (r : SdkEnvelope)
    (dataId : Option String) : List Event :=
  match get_token tokenFile with
  | .error es => es
  | .ok tok =>
      .request "POST" (sdk_url "/datasets") (get_headers tok) []
        :: create_kb_render r dataId

/-- `upload` after its POST.  The body is parsed inside `try/except`:
`parsed = none` models a body that is not JSON, reported with the raw
text. -/
def upload_render (parsed : Option SdkEnvelope) (raw : String) : List Event :=
  match parsed with
  | some data =>
      if data.code == some 0 then [.echoOut "✓ Uploaded successfully"]
      else [.echoErr ("❌ Upload failed: " ++ optText data.message)]
  | none => [.echoErr ("❌ Error parsing response: " ++ raw)]

/-- The full `upload` command: credential load, local file-existence check
(aborting before any request when the file is missing), then the POST and
response rendering. -/
def upload_run (tokenFile : Option String) (kb_id file : String)
    (fileExists : Bool) (parsed : Option SdkEnvelope) (raw : String) :
    List Event :=
  match get_token tokenFile with
  | .error es => es
  | .ok tok =>
      if !fileExists then [.echoErr ("❌ File not found: " ++ file)]
      else
        [.echoOut ("Uploading " ++ file ++ "..."),
         .request "POST" (sdk_url ("/datasets/" ++ kb_id ++ "/documents"))
           (get_headers tok) []]
        ++ upload_render parsed raw

/-- The `parser_config` mapping of a knowledge base, restricted to the two
nested flags the client writes (`graphrag.use_graphrag`,
`raptor.use_raptor`; `none` models an absent sub-mapping). -/
structure ParserConfig where
  use_graphrag : Option Bool
  use_raptor : Option Bool
deriving DecidableEq

/-- The full `configure_rag` command: credential load, a GET for the KB's
current `parser_config`, local toggling of the selected features, then a
PUT with the updated config.  `kbs` is the `data` list of the GET response
(empty when absent or falsy). -/
def configure_rag_run (tokenFile : Option String) (kb_id : String)
    (graphrag raptor : Bool) (listResp : SdkEnvelope) (kbs : List ParserConfig)
    (updResp : SdkEnvelope) : List Event :=
  match get_token tokenFile with
  | .error es => es
  | .ok tok =>
      let eGet := Event.request "GET" (sdk_url "/datasets") (get_headers tok) []
      if listResp.code != some 0 || kbs.isEmpty then
        [eGet, .echoErr ("❌ Failed to fetch KB details: "
                          ++ listResp.message.getD "KB not found")]
      else
        let updates_made := (if graphrag then ["GraphRAG"] else [])
                              ++ (if raptor then ["RAPTOR"] else [])
        if updates_made.isEmpty then
          [eGet, .echoOut "⚠ No options selected."]
        else
          let ePut := Event.request "PUT" (sdk_url ("/datasets/" ++ kb_id))
                        (get_headers tok) []
          if updResp.code == some 0 then
            [eGet, ePut,
             .echoOut ("✓ Enabled: " ++ String.intercalate ", " updates_made),
             .echoOut ("  ℹ Run: python cli.py run-task --kb-id " ++ kb_id
                        ++ " --task [graphrag|raptor]")]
          else
            [eGet, ePut,
             .echoErr ("❌ Update failed: " ++ optText updResp.message)]

/-- The full `run_task` command: credential load, one POST to the
task-specific run endpoint, response rendering. -/
def run_task_run (tokenFile : Option String) (kb_id task : String)
    (r : SdkEnvelope) : List Event :=
  match get_token tokenFile with
  | .error es => es
  | .ok tok =>
      let url := if task == "graphrag" then
                   sdk_url ("/datasets/" ++ kb_id ++ "/run_graphrag")
                 else sdk_url ("/datasets/" ++ kb_id ++ "/run_raptor")
      if r.code == some 0 then
        [.request "POST" url (get_headers tok) [],
         .echoOut ("✓ " ++ pyUpper task ++ " task started."),
         .echoOut ("  ℹ Check status: python cli.py check-task --kb-id "
                    ++ kb_id ++ " --task " ++ task)]
      else
        [.request "POST" url (get_headers tok) [],
         .echoErr ("❌ Failed: " ++ optText r.message)]

/-- The run statuses `start_parsing` selects: symbolic names and legacy
numeric codes for UNSTART and FAIL. -/
def parseTargets : List String := ["UNSTART", "0", "FAIL", "4"]

/-- The `start_parsing` document filter: `d.get("run") in
["UNSTART", "0", "FAIL", "4"]` (an absent `run` matches nothing). -/
def needsParsing (d : Doc) : Bool :=
  match d.run with
  | some s => parseTargets.contains s
  | none => false

/-- The IDs `start_parsing` batches into its one parsing request. -/
def target_ids (docs : List Doc) : List String :=
  (docs.filter needsParsing).map Doc.id

/-- The full `start_parsing` command: credential load, a GET listing the
documents, selection of the UNSTART/FAIL ones, and — when any were
selected — a single POST to `/chunks` carrying every selected ID. -/
def start_parsing_run (tokenFile : Option String) (kb_id : String)
    (listResp : SdkEnvelope) (docs : List Doc) (runResp : SdkEnvelope) :
    List Event :=
  match get_token tokenFile with
  | .error es => es
  | .ok tok =>
      let eGet := Event.request "GET"
        (sdk_url ("/datasets/" ++ kb_id ++ "/documents")) (get_headers tok) []
      if listResp.code != some 0 then
        [eGet, .echoErr ("❌ Failed to list documents: "
                          ++ optText listResp.message)]
      else
        let tids := target_ids docs
        if tids.isEmpty then
          [eGet, .echoOut "✓ No documents need parsing (all are running or done)."]
        else
          let ePost := Event.request "POST"
            (sdk_url ("/datasets/" ++ kb_id ++ "/chunks")) (get_headers tok) tids
          [eGet,
           .echoOut ("🚀 Starting parsing for " ++ toString tids.length
                      ++ " documents..."),
           ePost]
          ++ (if runResp.code == some 0 then
                [.echoOut "✓ Parsing started successfully.",
                 .echoOut "  ℹ Use \x27list-documents\x27 to monitor progress."]
              else
                [.echoErr ("❌ Failed to start parsing: "
                            ++ optText runResp.message)])

/-- The 20-character progress bar of `check_task`:
`int(bar_length * progress / 100)` fill characters (`progress` here is
already the percentage), dashes for the rest.  Negative fill counts repeat
zero characters, as Python string repetition does. -/
def progress_bar (pct : Rat) : List Char :=
  let filled : Int := pyInt (20 * pct / 100)
  List.replicate filled.toNat '█' ++ List.replicate ((20 - filled).toNat) '-'

/-- `check_task`'s completion test: percentage at least 100. -/
def taskComplete (pct : Rat) : Bool :=
  pct ≥ 100

/-- `check_task` after its GET succeeded with code 0: the no-active-task
notice on a falsy `data`, otherwise the cleared screen, the task line, the
progress-bar line, the status line, and the completion message exactly when
the percentage reaches 100. -/
def check_task_render (task : String) (info : Option TaskInfo) : List Event :=
  match info with
  | none => [.echoOut ("⚠ No active " ++ task ++ " task found for this KB.")]
  | some t =>
      let pct := t.progress.getD 0 * 100
      [.clearScreen,
       .echoOut ("Task: " ++ pyUpper task ++ " | ID: " ++ optText t.id),
       .progressLine (progress_bar pct) pct,
       .echoOut ("Status: " ++ t.progress_msg.getD "Processing...")]
      ++ (if taskComplete pct then [.echoOut "\n✅ Task Complete!"] else [])

/-- The full `check_task` command: credential load, one GET to the
task-specific trace endpoint, rendering (or the error line on a non-zero
code). -/
def check_task_run (tokenFile : Option String) (kb_id task : String)
    (r : SdkEnvelope) (info : Option TaskInfo) : List Event :=
  match get_token tokenFile with
  | .error es => es
  | .ok tok =>
      let url := if task == "graphrag" then
                   sdk_url ("/datasets/" ++ kb_id ++ "/trace_graphrag")
                 else sdk_url ("/datasets/" ++ kb_id ++ "/trace_raptor")
      Event.request "GET" url (get_headers tok) []
        :: (if r.code == some 0 then check_task_render task info
            else [.echoErr ("❌ Error checking status: " ++ optText r.message)])

/-- One table row of `list_documents`: the truncated name and the padded
status and count columns. -/
def doc_row (d : Doc) : String :=
  let name := if d.name.length > 37 then pySlice d.name 37 ++ "..." else d.name
  pyLJust name 40 ++ " | " ++ pyLJust (d.run.getD "UNKNOWN") 10 ++ " | "
    ++ pyLJust (toString d.token_count) 10 ++ " | "
    ++ pyLJust (toString d.chunk_count) 10

/-- `list_documents` after its GET succeeded with code 0: the empty notice,
or the table followed by the overall summary — the completion line exactly
when every document's status is DONE (a missing `run` field reads as
"UNKNOWN" and so counts as not done). -/
def list_documents_render (docs : List Doc) : List Event :=
  if docs.isEmpty then [.echoOut "No documents found."]
  else
    let all_done := docs.all (fun d => d.run.getD "UNKNOWN" == "DONE")
    [.echoOut (pyLJust "Name" 40 ++ " | " ++ pyLJust "Status" 10 ++ " | "
                ++ pyLJust "Tokens" 10 ++ " | " ++ pyLJust "Chunks" 10),
     .echoOut (String.mk (List.replicate 80 '-'))]
    ++ docs.map (fun d => Event.echoOut (doc_row d))
    ++ [if all_done then
          .echoOut "\n✅ All documents parsed successfully. Retrieval is ready."
        else
          .echoOut "\n⏳ Some documents are still processing. Please wait."]

/-- The full `list_documents` command: credential load, one GET to the
document-list endpoint, rendering (or the error line on a non-zero
code). -/
def list_documents_run (tokenFile : Option String) (kb_id : String)
    (r : SdkEnvelope) (docs : List Doc) : List Event :=
  match get_token tokenFile with
  | .error es => es
  | .ok tok =>
      Event.request "GET" (sdk_url ("/datasets/" ++ kb_id ++ "/documents"))
          (get_headers tok) []
        :: (if r.code == some 0 then list_documents_render docs
            else [.echoErr ("❌ Failed to fetch documents: " ++ optText r.message)])

/-- The chunk preview of `test_retrieval`:
`content[:150].replace("\n", " ") + "..."` when the content exceeds 150
characters, the content unmodified otherwise. -/
def preview (content : String) : String :=
  if content.length > 150 then
    pyReplaceChar (pySlice content 150) '\n' ' ' ++ "..."
  else content

/-- The content a chunk displays:
`chunk.get("content_with_weight", chunk.get("content", ""))`. -/
def chunkContent (c : Chunk) : String :=
  c.content_with_weight.getD (c.content.getD "")

/-- The per-chunk output of `test_retrieval`: a header with 1-based rank,
similarity score and document name, then the quoted preview. -/
def render_chunks (chunks : List Chunk) : List Event :=
  (chunks.enum.map (fun ci =>
    [Event.chunkHeader (ci.1 + 1) (ci.2.similarity.getD 0)
       (ci.2.document_name.getD "Unknown Document"),
     Event.echoOut ("   \"" ++ preview (chunkContent ci.2) ++ "\"\n")])).flatten

/-- The full `test_retrieval` command: credential load, the search notice,
one POST to `/api/v1/retrieval`, then the result rendering (no-result
notice, or the found-count line and the numbered previews), or the error
line on a non-zero code. -/
def test_retrieval_run (tokenFile : Option String) (question : String)
    (r : SdkEnvelope) (chunks : List Chunk) : List Event :=
  match get_token tokenFile with
  | .error es => es
  | .ok tok =>
      [Event.echoOut ("🔍 Searching: \x27" ++ question ++ "\x27..."),
       Event.request "POST" (sdk_url "/retrieval") (get_headers tok) []]
      ++ (if r.code == some 0 then
            if chunks.isEmpty then [.echoOut "⚠ No results found."]
            else .echoOut ("✓ Found " ++ toString chunks.length
                            ++ " matching chunks:\n") :: render_chunks chunks
          else [.echoErr ("❌ Retrieval failed: " ++ optText r.message)])

/-- The events `get_token` produces when the credential file is absent. -/
def unauthenticatedAbort : List Event :=
  [.echoErr "❌ Not authenticated. Run: python cli.py login", .exitProc 1]

/-- A trace whose final visible line goes to the error stream. -/
def endsInError (es : List Event) : Prop :=
  ∃ m, es.getLast? = some (.echoErr m)

theorem length_dropWhile_le (p : Char → Bool) (l : List Char) :
    (l.dropWhile p).length ≤ l.length := by
  induction l with
  | nil => simp
  | cons a l ih =>
      rw [List.dropWhile_cons]
      by_cases h : p a = true
      · simp only [h, if_true]
        exact Nat.le_trans ih (Nat.le_succ _)
      · simp [h]

theorem dropWhile_eq_self_of_length (p : Char → Bool) (l : List Char)
    (h : (l.dropWhile p).length = l.length) : l.dropWhile p = l := by
  cases l with
  | nil => simp
  | cons a l =>
      rw [List.dropWhile_cons] at h ⊢
      by_cases hp : p a = true
      · rw [if_pos hp] at h
        simp only [List.length_cons] at h
        have := length_dropWhile_le p l
        omega
      · simp [hp]

theorem head_false_of_dropWhile_eq_self (p : Char → Bool) (a : Char)
    (l : List Char) (h : (a :: l).dropWhile p = a :: l) : p a = false := by
  by_cases hp : p a = true
  · rw [List.dropWhile_cons, if_pos hp] at h
    have h1 := length_dropWhile_le p l
    have h2 := congrArg List.length h
    simp at h2
    omega
  · simpa using hp

theorem pyStripL_parts (t : List Char) (h : pyStripL t = t) :
    t.dropWhile pyIsSpace = t ∧ t.reverse.dropWhile pyIsSpace = t.reverse := by
  have hlen := congrArg List.length h
  rw [pyStripL] at hlen
  simp only [List.length_reverse] at hlen
  have l1 : ((t.dropWhile pyIsSpace).reverse.dropWhile pyIsSpace).length
      ≤ (t.dropWhile pyIsSpace).length := by
    have := length_dropWhile_le pyIsSpace (t.dropWhile pyIsSpace).reverse
    simpa using this
  have l2 := length_dropWhile_le pyIsSpace t
  have e1 : (t.dropWhile pyIsSpace).length = t.length := by omega
  have h1 := dropWhile_eq_self_of_length pyIsSpace t e1
  refine ⟨h1, ?_⟩
  rw [pyStripL, h1] at h
  have := congrArg List.reverse h
  simpa using this

/-- Stripping is the identity on the login-prefixed token whenever it is the
identity on the token itself: the prefix starts and ends in non-whitespace
characters, so only the token's own edges matter. -/
theorem pyStripL_ragflow_append (t : List Char) (h : pyStripL t = t) :
    pyStripL ("ragflow-".data ++ t) = "ragflow-".data ++ t := by
  obtain ⟨h1, h2⟩ := pyStripL_parts t h
  have hpre : "ragflow-".data = 'r' :: "agflow-".data := rfl
  have step1 : ("ragflow-".data ++ t).dropWhile pyIsSpace = "ragflow-".data ++ t := by
    rw [hpre, List.cons_append, List.dropWhile_cons]
    simp [pyIsSpace]
  have hrev : "ragflow-".data.reverse = '-' :: "wolfgar".data := by decide
  have step2 : (t.reverse ++ "ragflow-".data.reverse).dropWhile pyIsSpace
      = t.reverse ++ "ragflow-".data.reverse := by
    cases ht : t.reverse with
    | nil =>
        rw [hrev]
        simp only [List.nil_append, List.dropWhile_cons]
        simp [pyIsSpace]
    | cons c l =>
        rw [ht] at h2
        have hc := head_false_of_dropWhile_eq_self pyIsSpace c l h2
        rw [List.cons_append, List.dropWhile_cons, hc]
        simp
  rw [pyStripL, step1, List.reverse_append, step2, List.reverse_append]
  simp

/-- C9: the token persisted by `login` is the server token with the fixed
"ragflow-" prefix prepended, while `register` persists the server token
unmodified; for the same server token the two paths store different
credential-file contents. -/
theorem C9_divergent_stored_tokens (tok : String) (m1 m2 : Option String) :
    (login_handle ⟨200, 0, m1, tok⟩).1 = some ("ragflow-" ++ tok) ∧
    (register_run "password1!" ⟨200, 0, m2, 200, 0, tok⟩).1 = some tok ∧
    saveLoginToken tok ≠ saveRegisterToken tok := by
  refine ⟨rfl, rfl, fun h => ?_⟩
  have hl := congrArg String.length h
  rw [saveLoginToken, saveRegisterToken, String.length_append] at hl
  have h8 : ("ragflow-" : String).length = 8 := rfl
  omega

/-- C8: on the response envelope code 0 with `data.id = "kb123"`,
`create_kb` prints the created knowledge-base ID on standard output and a
next-command hint referencing the same ID. -/
theorem C8_create_kb_prints_id_and_hint :
    create_kb_run (some "tok") ⟨200, some 0, none, ""⟩ (some "kb123") =
      [.request "POST" (sdk_url "/datasets") (get_headers "tok") [],
       .echoOut "✓ Knowledge Base Created. ID: kb123",
       .echoOut "  Next: python cli.py upload --kb-id kb123 --file <path>"] := by
  decide

/-- C7: with no credential file, every authenticated sub-command writes the
not-authenticated error to the error stream and exits with code 1, issuing
no network request: its whole trace is the two-event abort. -/
theorem C7_unauthenticated_abort (kb_id file task question raw : String)
    (fileExists gr rp : Bool) (r r2 : SdkEnvelope) (parsed : Option SdkEnvelope)
    (dataId : Option String) (kbs : List ParserConfig) (docs : List Doc)
    (info : Option TaskInfo) (chunks : List Chunk) :
    create_kb_run none r dataId = unauthenticatedAbort ∧
    upload_run none kb_id file fileExists parsed raw = unauthenticatedAbort ∧
    configure_rag_run none kb_id gr rp r kbs r2 = unauthenticatedAbort ∧
    run_task_run none kb_id task r = unauthenticatedAbort ∧
    start_parsing_run none kb_id r docs r2 = unauthenticatedAbort ∧
    check_task_run none kb_id task r info = unauthenticatedAbort ∧
    list_documents_run none kb_id r docs = unauthenticatedAbort ∧
    test_retrieval_run none question r chunks = unauthenticatedAbort :=
  ⟨rfl, rfl, rfl, rfl, rfl, rfl, rfl, rfl⟩

/-- C3: a password shorter than 9 characters, or containing no symbol
character, makes `register` print a validation error to the error stream
and return: no credential is written and no network request is issued. -/
theorem C3_register_rejects_weak_passwords (password : String)
    (rs : RegisterResponses)
    (h : password.length < 9 ∨ hasSymbol password = false) :
    (register_run password rs).1 = none ∧
    ((register_run password rs).2 =
        [.echoErr "❌ Password must be at least 9 characters"] ∨
      (register_run password rs).2 =
        [.echoErr "❌ Password must contain at least one symbol"]) ∧
    ∀ e ∈ (register_run password rs).2, e.isRequest = false := by
  by_cases hl : password.length < 9
  · rw [register_run, if_pos hl]
    exact ⟨rfl, Or.inl rfl, by intro e he; simp at he; rw [he]; rfl⟩
  · rcases h with h | h
    · exact absurd h hl
    · rw [register_run, if_neg hl, if_pos (by simp [h])]
      exact ⟨rfl, Or.inr rfl, by intro e he; simp at he; rw [he]; rfl⟩

/-- Witness for C3 at the concrete password "short". -/
theorem C3_witness :
    ("short".length < 9 ∨ hasSymbol "short" = false) ∧
    ((register_run "short" ⟨200, 0, none, 200, 0, "tok"⟩).1 = none ∧
      ((register_run "short" ⟨200, 0, none, 200, 0, "tok"⟩).2 =
          [.echoErr "❌ Password must be at least 9 characters"] ∨
        (register_run "short" ⟨200, 0, none, 200, 0, "tok"⟩).2 =
          [.echoErr "❌ Password must contain at least one symbol"]) ∧
      ∀ e ∈ (register_run "short" ⟨200, 0, none, 200, 0, "tok"⟩).2,
        e.isRequest = false) :=
  ⟨Or.inl (by decide),
   C3_register_rejects_weak_passwords "short" ⟨200, 0, none, 200, 0, "tok"⟩
     (Or.inl (by decide))⟩

/-- C1 counterexample: when the server returns the token "a\n", `login`
writes "ragflow-a\n" to the credential file, but the next command's
Authorization header carries the stripped "ragflow-a", which is not the
written string — so the save/load round trip is not exact as claimed. -/
theorem C1_counterexample :
    (login_handle ⟨200, 0, none, "a\n"⟩).1 = some "ragflow-a\n" ∧
    get_token (some "ragflow-a\n") = .ok "ragflow-a" ∧
    get_headers "ragflow-a" = "Bearer ragflow-a" ∧
    "ragflow-a" ≠ "ragflow-a\n" := by
  refine ⟨rfl, ?_, rfl, by decide⟩
  show Except.ok (pyStrip "ragflow-a\n") = Except.ok "ragflow-a"
  exact congrArg Except.ok (by decide)

/-- C1 (amended): whenever the server token is unchanged by
whitespace-stripping, the credential saved by `login` or by `register` is
loaded back verbatim by the next command and placed as-is after "Bearer "
in the Authorization header — the round trip is exact. -/
theorem C1_round_trip (t : String) (h : pyStrip t = t) :
    get_token (some (saveLoginToken t)) = .ok (saveLoginToken t) ∧
    get_token (some (saveRegisterToken t)) = .ok (saveRegisterToken t) ∧
    get_headers (pyStrip (saveLoginToken t)) = "Bearer " ++ saveLoginToken t ∧
    get_headers (pyStrip (saveRegisterToken t)) = "Bearer " ++ saveRegisterToken t := by
  have hd : pyStripL t.data = t.data := congrArg String.data h
  have hlogin : pyStrip (saveLoginToken t) = saveLoginToken t := by
    apply String.ext
    show pyStripL (("ragflow-" ++ t) : String).data = (("ragflow-" ++ t) : String).data
    rw [String.data_append]
    exact pyStripL_ragflow_append t.data hd
  have hreg : pyStrip (saveRegisterToken t) = saveRegisterToken t := by
    apply String.ext
    exact hd
  refine ⟨?_, ?_, ?_, ?_⟩
  · show Except.ok (pyStrip (saveLoginToken t)) = _
    rw [hlogin]
  · show Except.ok (pyStrip (saveRegisterToken t)) = _
    rw [hreg]
  · rw [hlogin]; rfl
  · rw [hreg]; rfl

/-- Witness for C1 at the concrete whitespace-free token "tok123". -/
theorem C1_witness :
    pyStrip "tok123" = "tok123" ∧
    (get_token (some (saveLoginToken "tok123")) = .ok (saveLoginToken "tok123") ∧
     get_token (some (saveRegisterToken "tok123")) = .ok (saveRegisterToken "tok123") ∧
     get_headers (pyStrip (saveLoginToken "tok123")) = "Bearer " ++ saveLoginToken "tok123" ∧
     get_headers (pyStrip (saveRegisterToken "tok123")) = "Bearer " ++ saveRegisterToken "tok123") :=
  ⟨by decide, C1_round_trip "tok123" (by decide)⟩

/-- C2: with a successful document-list response, `start_parsing` selects
exactly the documents whose run status is the symbolic UNSTART or FAIL or
the numeric "0" or "4"; documents in RUNNING or DONE are never selected;
and (when anything was selected) the command issues exactly one parsing
request, carrying every selected ID. -/
theorem C2_start_parsing_selection (tok kb_id : String)
    (listResp runResp : SdkEnvelope) (docs : List Doc)
    (hcode : listResp.code = some 0) (hne : target_ids docs ≠ []) :
    (∀ d ∈ docs, (needsParsing d = true ↔
      (d.run = some "UNSTART" ∨ d.run = some "0" ∨
       d.run = some "FAIL" ∨ d.run = some "4"))) ∧
    (∀ d ∈ docs.filter needsParsing,
      d.run ≠ some "RUNNING" ∧ d.run ≠ some "DONE") ∧
    target_ids docs = (docs.filter needsParsing).map Doc.id ∧
    (start_parsing_run (some tok) kb_id listResp docs runResp).filter
        Event.isRequest =
      [.request "GET" (sdk_url ("/datasets/" ++ kb_id ++ "/documents"))
         (get_headers (pyStrip tok)) [],
       .request "POST" (sdk_url ("/datasets/" ++ kb_id ++ "/chunks"))
         (get_headers (pyStrip tok)) (target_ids docs)] := by
  have hchar : ∀ d : Doc, needsParsing d = true ↔
      (d.run = some "UNSTART" ∨ d.run = some "0" ∨
       d.run = some "FAIL" ∨ d.run = some "4") := by
    intro d
    cases hr : d.run with
    | none => simp [needsParsing, hr]
    | some s =>
        simp only [needsParsing, hr, parseTargets, List.contains, List.elem_iff]
        simp
  refine ⟨fun d _ => hchar d, ?_, rfl, ?_⟩
  · intro d hd
    have hp := List.of_mem_filter hd
    rcases (hchar d).mp hp with h | h | h | h <;> rw [h] <;> exact ⟨by decide, by decide⟩
  · have hni : (target_ids docs).isEmpty = false := by
      cases hti : target_ids docs with
      | nil => exact absurd hti hne
      | cons a l => rfl
    rw [start_parsing_run]
    simp only [get_token, hcode, bne_self_eq_false, Bool.false_eq_true, if_false, hni]
    cases h2 : (runResp.code == some 0) <;>
      simp [Event.isRequest, List.filter_cons, List.filter_append, h2]

/-- Witness for C2 on a concrete two-document list (one UNSTART, one
RUNNING). -/
theorem C2_witness :
    ((⟨200, some 0, none, ""⟩ : SdkEnvelope).code = some 0) ∧
    target_ids [⟨"d1", "a", some "UNSTART", 0, 0⟩, ⟨"d2", "b", some "RUNNING", 1, 2⟩] ≠ [] ∧
    (start_parsing_run (some "t") "kb" ⟨200, some 0, none, ""⟩
        [⟨"d1", "a", some "UNSTART", 0, 0⟩, ⟨"d2", "b", some "RUNNING", 1, 2⟩]
        ⟨200, some 0, none, ""⟩).filter Event.isRequest =
      [.request "GET" (sdk_url ("/datasets/" ++ "kb" ++ "/documents"))
         (get_headers (pyStrip "t")) [],
       .request "POST" (sdk_url ("/datasets/" ++ "kb" ++ "/chunks"))
         (get_headers (pyStrip "t"))
         (target_ids [⟨"d1", "a", some "UNSTART", 0, 0⟩, ⟨"d2", "b", some "RUNNING", 1, 2⟩])] :=
  ⟨rfl, by decide,
   (C2_start_parsing_selection "t" "kb" ⟨200, some 0, none, ""⟩ ⟨200, some 0, none, ""⟩
     [⟨"d1", "a", some "UNSTART", 0, 0⟩, ⟨"d2", "b", some "RUNNING", 1, 2⟩]
     rfl (by decide)).2.2.2⟩

/-- C5: on a non-empty document list, `list_documents` ends with the
overall-completion line exactly when every document's run status is DONE,
and with the still-processing line exactly otherwise (a missing status
field reads as "UNKNOWN" and suppresses completion). -/
theorem C5_list_documents_completion (docs : List Doc) (h : docs ≠ []) :
    ((list_documents_render docs).getLast? =
        some (.echoOut "\n✅ All documents parsed successfully. Retrieval is ready.") ↔
      ∀ d ∈ docs, d.run = some "DONE") ∧
    ((list_documents_render docs).getLast? =
        some (.echoOut "\n⏳ Some documents are still processing. Please wait.") ↔
      ¬ ∀ d ∈ docs, d.run = some "DONE") := by
  have hiff : (docs.all (fun d => d.run.getD "UNKNOWN" == "DONE") = true)
      ↔ ∀ d ∈ docs, d.run = some "DONE" := by
    rw [List.all_eq_true]
    constructor
    · intro hall d hd
      have hthis := hall d hd
      cases hr : d.run with
      | none => rw [hr] at hthis; simp at hthis
      | some s => rw [hr] at hthis; simp at hthis; rw [hthis]
    · intro hall d hd
      rw [hall d hd]; rfl
  have hie : docs.isEmpty = false := by
    cases docs with
    | nil => exact absurd rfl h
    | cons a l => rfl
  have hlast : (list_documents_render docs).getLast? =
      some (if docs.all (fun d => d.run.getD "UNKNOWN" == "DONE")
            then Event.echoOut "\n✅ All documents parsed successfully. Retrieval is ready."
            else Event.echoOut "\n⏳ Some documents are still processing. Please wait.") := by
    simp only [list_documents_render, hie, Bool.false_eq_true, if_false]
    exact List.getLast?_concat _
  rw [hlast]
  by_cases hb : docs.all (fun d => d.run.getD "UNKNOWN" == "DONE") = true
  · rw [if_pos hb]
    exact ⟨⟨fun _ => hiff.mp hb, fun _ => rfl⟩,
           ⟨fun hEq => absurd hEq (by decide),
            fun hAll => absurd (hiff.mp hb) hAll⟩⟩
  · rw [if_neg hb]
    have hnall : ¬ ∀ d ∈ docs, d.run = some "DONE" :=
      fun hAll => hb (hiff.mpr hAll)
    exact ⟨⟨fun hEq => absurd hEq (by decide), fun hAll => absurd hAll hnall⟩,
           ⟨fun _ => hnall, fun _ => rfl⟩⟩

/-- Witness for C5 on a concrete one-document list with status DONE. -/
theorem C5_witness :
    ([⟨"d", "n", some "DONE", 1, 2⟩] : List Doc) ≠ [] ∧
    (((list_documents_render [⟨"d", "n", some "DONE", 1, 2⟩]).getLast? =
        some (.echoOut "\n✅ All documents parsed successfully. Retrieval is ready.") ↔
      ∀ d ∈ ([⟨"d", "n", some "DONE", 1, 2⟩] : List Doc), d.run = some "DONE") ∧
     ((list_documents_render [⟨"d", "n", some "DONE", 1, 2⟩]).getLast? =
        some (.echoOut "\n⏳ Some documents are still processing. Please wait.") ↔
      ¬ ∀ d ∈ ([⟨"d", "n", some "DONE", 1, 2⟩] : List Doc), d.run = some "DONE")) :=
  ⟨by decide, C5_list_documents_completion [⟨"d", "n", some "DONE", 1, 2⟩] (by decide)⟩

/-- C4: in `check_task`, a task with progress field 1/2 renders the
20-character bar with exactly 10 fill and 10 dash characters; every
progress at least 1 makes the completion line the (fifth and) last event,
and every progress below 1 leaves only the four standard events, so no
completion message is emitted. -/
theorem C4_check_task_progress (task : String) (t : TaskInfo) (p : Rat)
    (hp : t.progress = some p) :
    (p = Rat.divInt 1 2 →
      Event.progressLine (List.replicate 10 '█' ++ List.replicate 10 '-') 50
        ∈ check_task_render task (some t)) ∧
    (p ≥ 1 → (check_task_render task (some t)).getLast? =
      some (.echoOut "\n✅ Task Complete!")) ∧
    (p ≥ 1 → (check_task_render task (some t)).length = 5) ∧
    (p < 1 → (check_task_render task (some t)).length = 4) := by
  have hgd : t.progress.getD 0 = p := by rw [hp]; rfl
  refine ⟨?_, ?_, ?_, ?_⟩
  · intro hhalf
    have hpct : t.progress.getD 0 * 100 = 50 := by
      rw [hgd, hhalf, Rat.divInt_eq_div]; norm_num
    have h10 : pyInt (20 * (50 : Rat) / 100) = 10 := by
      rw [pyInt, if_neg (by norm_num), show (20 * (50 : Rat) / 100) = 10 by norm_num]
      simp
    have hbar : progress_bar 50 = List.replicate 10 '█' ++ List.replicate 10 '-' := by
      rw [progress_bar]
      rw [h10]
      rfl
    simp only [check_task_render, hpct, hbar]
    exact List.mem_append_left _ (by simp)
  · intro h1
    have hc : taskComplete (t.progress.getD 0 * 100) = true := by
      rw [taskComplete]
      exact decide_eq_true (by rw [hgd]; linarith)
    simp only [check_task_render, hc, if_true]
    exact List.getLast?_concat _
  · intro h1
    have hc : taskComplete (t.progress.getD 0 * 100) = true := by
      rw [taskComplete]
      exact decide_eq_true (by rw [hgd]; linarith)
    simp only [check_task_render, hc, if_true]
    rfl
  · intro h1
    have hc : taskComplete (t.progress.getD 0 * 100) = false := by
      rw [taskComplete]
      exact decide_eq_false (not_le.mpr (by rw [hgd]; linarith))
    simp only [check_task_render, hc, Bool.false_eq_true, if_false, List.append_nil]
    rfl

/-- Witness for C4 at the concrete progress values 1/2, 1 and 0. -/
theorem C4_witness :
    ((⟨some "tid", some (Rat.divInt 1 2), none⟩ : TaskInfo).progress =
      some (Rat.divInt 1 2)) ∧
    Event.progressLine (List.replicate 10 '█' ++ List.replicate 10 '-') 50
      ∈ check_task_render "graphrag" (some ⟨some "tid", some (Rat.divInt 1 2), none⟩) ∧
    (check_task_render "graphrag" (some ⟨some "tid", some 1, none⟩)).getLast? =
      some (.echoOut "\n✅ Task Complete!") ∧
    (check_task_render "graphrag" (some ⟨some "tid", some 0, none⟩)).length = 4 :=
  ⟨rfl,
   (C4_check_task_progress "graphrag" ⟨some "tid", some (Rat.divInt 1 2), none⟩
      (Rat.divInt 1 2) rfl).1 rfl,
   (C4_check_task_progress "graphrag" ⟨some "tid", some 1, none⟩ 1 rfl).2.1
     (le_refl 1),
   (C4_check_task_progress "graphrag" ⟨some "tid", some 0, none⟩ 0 rfl).2.2.2
     zero_lt_one⟩

/-- C6 counterexample: `register`'s token-generation exchange with envelope
code 1 (HTTP 200) is not rendered as an error line — the command prints a
registered-now-login notice on standard output and the trace contains no
stderr event at all. -/
theorem C6_counterexample :
    (register_run "password1!" ⟨200, 0, none, 200, 1, "tok"⟩).2 =
      [.request "POST" (BASE_URL ++ "/v1/user/register") "" [],
       .request "POST" (BASE_URL ++ "/v1/system/new_token") "" [],
       .echoOut "✓ Registered. Now run: python cli.py login"] ∧
    (∀ e ∈ (register_run "password1!" ⟨200, 0, none, 200, 1, "tok"⟩).2,
      e.isEchoErr = false) := by
  decide

/-- C6 (amended): every SDK sub-command (create-kb, upload, configure-rag,
run-task, start-parsing, check-task, list-documents, test-retrieval) treats
a response whose envelope code is non-zero or absent as a failure and ends
its trace with an error line, regardless of the HTTP status; this also
holds for the second request of start-parsing and configure-rag when the
first succeeded.  (The register command's token-generation step, by
contrast, reports such a response on standard output — see the
counterexample.) -/
theorem C6_sdk_commands_error_on_bad_code (tok kb_id file task question : String)
    (r r2 : SdkEnvelope) (dataId : Option String) (kbs : List ParserConfig)
    (docs : List Doc) (info : Option TaskInfo) (chunks : List Chunk)
    (hbad : r.code ≠ some 0) :
    endsInError (create_kb_run (some tok) r dataId) ∧
    endsInError (upload_run (some tok) kb_id file true (some r) r.raw) ∧
    endsInError (configure_rag_run (some tok) kb_id true false r kbs r2) ∧
    endsInError (run_task_run (some tok) kb_id task r) ∧
    endsInError (start_parsing_run (some tok) kb_id r docs r2) ∧
    endsInError (check_task_run (some tok) kb_id task r info) ∧
    endsInError (list_documents_run (some tok) kb_id r docs) ∧
    endsInError (test_retrieval_run (some tok) question r chunks) ∧
    (∀ rOK : SdkEnvelope, rOK.code = some 0 → target_ids docs ≠ [] →
      endsInError (start_parsing_run (some tok) kb_id rOK docs r)) ∧
    (∀ rOK : SdkEnvelope, rOK.code = some 0 → kbs ≠ [] →
      endsInError (configure_rag_run (some tok) kb_id true false rOK kbs r)) := by
  have hb : (r.code == some 0) = false := beq_eq_false_iff_ne.mpr hbad
  have hbn : (r.code != some 0) = true := bne_iff_ne.mpr hbad
  refine ⟨?_, ?_, ?_, ?_, ?_, ?_, ?_, ?_, ?_, ?_⟩
  · refine ⟨"❌ Failed: " ++ r.message.getD r.raw, ?_⟩
    simp only [create_kb_run, get_token, create_kb_render, hb,
      Bool.false_eq_true, if_false]
    rfl
  · refine ⟨"❌ Upload failed: " ++ optText r.message, ?_⟩
    simp only [upload_run, get_token, upload_render, hb,
      Bool.false_eq_true, if_false]
    rfl
  · refine ⟨"❌ Failed to fetch KB details: " ++ r.message.getD "KB not found", ?_⟩
    simp only [configure_rag_run, get_token, hbn, Bool.true_or, if_true]
    rfl
  · refine ⟨"❌ Failed: " ++ optText r.message, ?_⟩
    simp only [run_task_run, get_token, hb, Bool.false_eq_true, if_false]
    rfl
  · refine ⟨"❌ Failed to list documents: " ++ optText r.message, ?_⟩
    simp only [start_parsing_run, get_token, hbn, if_true]
    rfl
  · refine ⟨"❌ Error checking status: " ++ optText r.message, ?_⟩
    simp only [check_task_run, get_token, hb, Bool.false_eq_true, if_false]
    rfl
  · refine ⟨"❌ Failed to fetch documents: " ++ optText r.message, ?_⟩
    simp only [list_documents_run, get_token, hb, Bool.false_eq_true, if_false]
    rfl
  · refine ⟨"❌ Retrieval failed: " ++ optText r.message, ?_⟩
    simp only [test_retrieval_run, get_token, hb, Bool.false_eq_true, if_false]
    rfl
  · intro rOK hOK hne
    have hnb : (rOK.code != some 0) = false := by rw [hOK]; rfl
    have hni : (target_ids docs).isEmpty = false := by
      cases hti : target_ids docs with
      | nil => exact absurd hti hne
      | cons a l => rfl
    refine ⟨"❌ Failed to start parsing: " ++ optText r.message, ?_⟩
    simp only [start_parsing_run, get_token, hnb, Bool.false_eq_true, if_false,
      hni, hb]
    exact List.getLast?_concat _
  · intro rOK hOK hkne
    have hnb : (rOK.code != some 0) = false := by rw [hOK]; rfl
    have hki : kbs.isEmpty = false := by
      cases hk : kbs with
      | nil => exact absurd hk hkne
      | cons a l => rfl
    refine ⟨"❌ Update failed: " ++ optText r.message, ?_⟩
    simp only [configure_rag_run, get_token, hnb, hki, Bool.or_self,
      Bool.false_eq_true, if_false, hb]
    rfl

/-- Witness for C6 at a concrete failing envelope (HTTP 500, code 7). -/
theorem C6_witness :
    ((⟨500, some 7, some "boom", "body"⟩ : SdkEnvelope).code ≠ some 0) ∧
    endsInError (create_kb_run (some "t") ⟨500, some 7, some "boom", "body"⟩ none) ∧
    endsInError (check_task_run (some "t") "kb" "graphrag"
      ⟨500, some 7, some "boom", "body"⟩ none) ∧
    endsInError (start_parsing_run (some "t") "kb" ⟨200, some 0, none, ""⟩
      [⟨"d1", "a", some "UNSTART", 0, 0⟩] ⟨500, some 7, some "boom", "body"⟩) := by
  have H := C6_sdk_commands_error_on_bad_code "t" "kb" "f" "graphrag" "q"
    ⟨500, some 7, some "boom", "body"⟩ ⟨500, some 7, some "boom", "body"⟩ none
    [⟨none, none⟩] [⟨"d1", "a", some "UNSTART", 0, 0⟩] none [] (by decide)
  exact ⟨by decide, H.1, H.2.2.2.2.2.1,
    H.2.2.2.2.2.2.2.2.1 ⟨200, some 0, none, ""⟩ rfl (by decide)⟩

/-- C10: a chunk content longer than 150 characters is previewed as its
first 150 characters with every newline replaced by a space, followed by
"..."; content of at most 150 characters is printed unmodified, newlines
included. -/
theorem C10_preview_truncation (content : String) :
    (content.length > 150 →
      (preview content).data =
        (content.data.take 150).map (fun c => if c = '\n' then ' ' else c)
          ++ ['.', '.', '.']) ∧
    (content.length ≤ 150 → preview content = content) := by
  constructor
  · intro h
    rw [preview, if_pos h, String.data_append]
    simp only [pyReplaceChar, pySlice]
    congr 1
    exact List.map_congr_left (fun c _ => by by_cases hc : c = '\n' <;> simp [hc])
  · intro h
    rw [preview, if_neg (not_lt.mpr h)]

set_option maxRecDepth 4000 in
/-- Witness for C10 at a concrete 151-character content and a concrete
short content containing a newline. -/
theorem C10_witness :
    ((String.mk (List.replicate 151 'a')).length > 150 ∧
      (preview (String.mk (List.replicate 151 'a'))).data =
        ((String.mk (List.replicate 151 'a')).data.take 150).map
          (fun c => if c = '\n' then ' ' else c) ++ ['.', '.', '.']) ∧
    ("ab\ncd".length ≤ 150 ∧ preview "ab\ncd" = "ab\ncd") :=
  ⟨⟨by decide, (C10_preview_truncation (String.mk (List.replicate 151 'a'))).1
      (by decide)⟩,
   ⟨by decide, (C10_preview_truncation "ab\ncd").2 (by decide)⟩⟩
